import Mathlib

/-!
Verification of the process-monitor supervisor (src/process-monitor.c and
helpers) against its natural-language specification.

The supervisor's mutable state (the file-scope variables of
process-monitor.c) is embedded as the structure `SupState`.  Each event
handler of the C source is translated into a Lean function on `SupState`;
effects that the handler performs on the outside world (arming an alarm,
sending a signal, calling exit) are returned explicitly in the result type.
Results of system calls that the handlers consume (forkpty, waitpid, malloc)
are passed in as parameters.
-/

namespace ProcessMonitor

/-- The supervisor's file-scope state in process-monitor.c:
`child_pid` (−1 when no child), `pty_fd` (−1 when closed),
`do_restart`, `do_exit`, `child_wait_time`, `min_child_wait_time`,
`max_child_wait_time`.  The C ints `do_restart` and `do_exit` only ever
hold 0 or 1 and are modelled as `Bool`. -/
structure SupState where
  child_pid : Int
  pty_fd : Int
  do_restart : Bool
  do_exit : Bool
  child_wait_time : Int
  min_child_wait_time : Int
  max_child_wait_time : Int
deriving DecidableEq, Repr

/-- `set_child_wait_time` (process-monitor.c:926-931): double
`child_wait_time`, saturating at `max_child_wait_time`. -/
def set_child_wait_time (st : SupState) : SupState :=
  let w := st.child_wait_time * 2
  { st with child_wait_time :=
      if w ≥ st.max_child_wait_time then st.max_child_wait_time else w }

/-- `start_child` (process-monitor.c:1083-1145), parent side.
`forkpty_result` is `none` when forkpty fails, otherwise the child pid and
the master pty descriptor.  On failure `child_pid` is cleared and
`child_wait_time` is pinned to 60. -/
def start_child (st : SupState) (forkpty_result : Option (Int × Int)) :
    SupState :=
  match forkpty_result with
  | none => { st with child_pid := -1, child_wait_time := 60 }
  | some (pid, fd) => { st with child_pid := pid, pty_fd := fd }

/-- Result of the SIGCHLD event handler: either the supervisor process
exits with a status, or it continues, possibly having armed an alarm for
the given number of seconds. -/
inductive ChildEvent where
  | exited (code : Int)
  | cont (alarm : Option Int) (st : SupState)
deriving DecidableEq, Repr

/-- `handle_child_signal` (process-monitor.c:854-917).  `pid` is what
`waitpid(-1, ..., WNOHANG)` returned.  If the reap does not match the
tracked child the event is ignored.  Otherwise the child is forgotten and
the pty closed; if `do_exit` is latched the supervisor exits 0; if
`do_restart` is set, an alarm is armed for `child_wait_time` seconds
(1 when it is 0) and the wait time is doubled via `set_child_wait_time`. -/
def handle_child_signal (st : SupState) (pid : Int) : ChildEvent :=
  if pid = -1 ∨ st.child_pid = -1 ∨ pid ≠ st.child_pid then
    .cont none st
  else
    let st1 := { st with
                 child_pid := -1,
                 pty_fd := if st.pty_fd ≥ 0 then -1 else st.pty_fd }
    if st1.do_exit then
      .exited 0
    else if st1.do_restart then
      let wt := if st1.child_wait_time = 0 then 1 else st1.child_wait_time
      .cont (some wt) (set_child_wait_time st1)
    else
      .cont none st1

/-- One reap of the tracked child followed by the respawn that the armed
alarm later drives (new child pid 100, pty fd 5); returns the alarm delay
and the state after the respawn.  `none` when no alarm was armed. -/
def reap_respawn (st : SupState) : Option (Int × SupState) :=
  match handle_child_signal st st.child_pid with
  | .cont (some a) st1 => some (a, start_child st1 (some (100, 5)))
  | _ => none

/-- The list of alarm delays over `n` successive reap/respawn cycles. -/
def alarm_trace : SupState → Nat → List Int
  | _, 0 => []
  | st, n + 1 =>
    match reap_respawn st with
    | none => []
    | some (a, st1) => a :: alarm_trace st1 n

/-- A supervisor started as `-m 2 -M 8` with a running child. -/
def demo_state : SupState :=
  { child_pid := 100, pty_fd := 5, do_restart := true, do_exit := false,
    child_wait_time := 2, min_child_wait_time := 2, max_child_wait_time := 8 }

/-- C1: on every reap of the tracked child with monitoring enabled and exit
not latched, the supervisor arms an alarm for max(wait_time, 1) seconds and
then doubles wait_time saturating at max_wait; under min_wait=2, max_wait=8
the successive alarm delays are 2, 4, 8, 8. -/
theorem c1_reap_backoff (st : SupState) (pid : Int)
    (hm : st.do_restart = true) (he : st.do_exit = false)
    (hp : pid = st.child_pid) (hc : 0 < st.child_pid)
    (hw : 0 ≤ st.child_wait_time) :
    handle_child_signal st pid =
      .cont (some (max st.child_wait_time 1))
        { st with
          child_pid := -1,
          pty_fd := if st.pty_fd ≥ 0 then -1 else st.pty_fd,
          child_wait_time :=
            if st.child_wait_time * 2 ≥ st.max_child_wait_time
            then st.max_child_wait_time else st.child_wait_time * 2 } ∧
    alarm_trace demo_state 4 = [2, 4, 8, 8] := by
  constructor
  · have hne : ¬ (pid = -1 ∨ st.child_pid = -1 ∨ pid ≠ st.child_pid) := by
      push_neg
      refine ⟨by omega, by omega, hp⟩
    rw [handle_child_signal, if_neg hne]
    simp only [he, hm, if_false, if_true, Bool.false_eq_true, reduceIte,
      set_child_wait_time]
    have hmax : (if st.child_wait_time = 0 then 1 else st.child_wait_time)
        = max st.child_wait_time 1 := by
      split <;> omega
    rw [hmax]
  · decide

/-- Witness for `c1_reap_backoff` at the concrete state `demo_state`. -/
theorem c1_reap_backoff_witness :
    handle_child_signal demo_state 100 =
      .cont (some (max demo_state.child_wait_time 1))
        { demo_state with
          child_pid := -1,
          pty_fd := if demo_state.pty_fd ≥ 0 then -1 else demo_state.pty_fd,
          child_wait_time :=
            if demo_state.child_wait_time * 2 ≥ demo_state.max_child_wait_time
            then demo_state.max_child_wait_time
            else demo_state.child_wait_time * 2 } ∧
    alarm_trace demo_state 4 = [2, 4, 8, 8] :=
  c1_reap_backoff demo_state 100 rfl rfl rfl (by decide) (by decide)

/-- Outcome of `kill_child_and_exit`: which signals were sent, the exit
status of the supervisor, and the supervisor state during the final wait
loop. -/
structure ShutdownOutcome where
  sent_term : Bool
  sent_kill : Bool
  exit_code : Int
  state : SupState
deriving DecidableEq, Repr

/-- `kill_child_and_exit` (process-monitor.c:744-762), run on the FIFO
command byte `x`.  With no tracked child it exits 0 at once.  Otherwise it
clears `do_restart`, latches `do_exit`, sends SIGTERM, sets
`min_child_wait_time` and `max_child_wait_time` to 5, and re-runs
`wait_in_select` until the child dies or 6 seconds elapse;
`child_dies_within_deadline` abstracts that real-time race.  If the child
reaps inside the loop, `handle_child_signal` exits 0 (the `do_exit`
branch); otherwise SIGKILL is sent and the function exits 0. -/
def kill_child_and_exit (st : SupState) (child_dies_within_deadline : Bool) :
    ShutdownOutcome :=
  if st.child_pid ≤ 0 then
    { sent_term := false, sent_kill := false, exit_code := 0, state := st }
  else
    let st1 := { st with
                 do_restart := false
                 do_exit := true
                 min_child_wait_time := 5
                 max_child_wait_time := 5 }
    if child_dies_within_deadline then
      { sent_term := true, sent_kill := false, exit_code := 0, state := st1 }
    else
      { sent_term := true, sent_kill := true, exit_code := 0, state := st1 }

/-- A supervisor with a tracked child and default wait bounds, about to
receive the exit command. -/
def c2_state : SupState :=
  { child_pid := 1, pty_fd := 4, do_restart := true, do_exit := false,
    child_wait_time := 2, min_child_wait_time := 2,
    max_child_wait_time := 300 }

/-- C2 counterexample: `kill_child_and_exit` does not force `wait_time` to
5; it sets the min and max bounds to 5 and leaves `child_wait_time`
unchanged (here 2). -/
theorem c2_wait_time_not_forced :
    (kill_child_and_exit c2_state true).state.child_wait_time = 2 ∧
    (kill_child_and_exit c2_state true).state.min_child_wait_time = 5 ∧
    (kill_child_and_exit c2_state true).state.max_child_wait_time = 5 ∧
    (kill_child_and_exit c2_state true).state.child_wait_time ≠ 5 := by
  decide

/-- C2 amended: on the FIFO byte `x` with a tracked child the supervisor
latches monitor=false and exit=true, sends SIGTERM, forces
`min_child_wait_time` and `max_child_wait_time` (not `wait_time`) to 5,
waits up to 6 seconds, sends SIGKILL only if the child is still alive at
the deadline, and exits 0. -/
theorem c2_orderly_shutdown_amended (st : SupState) (d : Bool)
    (h : 0 < st.child_pid) :
    kill_child_and_exit st d =
      { sent_term := true, sent_kill := !d, exit_code := 0,
        state := { st with
                   do_restart := false
                   do_exit := true
                   min_child_wait_time := 5
                   max_child_wait_time := 5 } } := by
  rw [kill_child_and_exit, if_neg (by omega)]
  cases d <;> rfl

/-- Witness for `c2_orderly_shutdown_amended` at `c2_state`. -/
theorem c2_orderly_shutdown_amended_witness :
    kill_child_and_exit c2_state false =
      { sent_term := true, sent_kill := !false, exit_code := 0,
        state := { c2_state with
                   do_restart := false
                   do_exit := true
                   min_child_wait_time := 5
                   max_child_wait_time := 5 } } :=
  c2_orderly_shutdown_amended c2_state false (by decide)

/-- C10: the FIFO byte `x` with no tracked child (`child_pid ≤ 0`) makes
the supervisor exit 0 immediately: no signal is sent and the state (flags
and wait-time bounds) is untouched. -/
theorem c10_exit_no_child (st : SupState) (d : Bool)
    (h : st.child_pid ≤ 0) :
    kill_child_and_exit st d =
      { sent_term := false, sent_kill := false, exit_code := 0,
        state := st } := by
  rw [kill_child_and_exit, if_pos h]

/-- Witness for `c10_exit_no_child` with `child_pid = -1`. -/
theorem c10_exit_no_child_witness :
    kill_child_and_exit { demo_state with child_pid := -1 } true =
      { sent_term := false, sent_kill := false, exit_code := 0,
        state := { demo_state with child_pid := -1 } } :=
  c10_exit_no_child { demo_state with child_pid := -1 } true (by decide)

/-- `stop_monitoring` (process-monitor.c:1048-1053): clear `do_restart`. -/
def stop_monitoring (st : SupState) : SupState :=
  { st with do_restart := false }

/-- `start_monitoring` (process-monitor.c:1062-1071): set `do_restart`,
reset `child_wait_time` to `min_child_wait_time`, and spawn a child if
none is tracked. -/
def start_monitoring (st : SupState) (forkpty_result : Option (Int × Int)) :
    SupState :=
  let st1 := { st with
               do_restart := true
               child_wait_time := st.min_child_wait_time }
  if st1.child_pid ≤ 0 then start_child st1 forkpty_result else st1

/-- The wait-time fix-up in `main` (process-monitor.c:306-311):
`child_wait_time := min_child_wait_time`, and raise `max_child_wait_time`
to `min_child_wait_time` when it is smaller. -/
def startup_fixup (st : SupState) : SupState :=
  if st.max_child_wait_time < st.min_child_wait_time then
    { st with
      child_wait_time := st.min_child_wait_time
      max_child_wait_time := st.min_child_wait_time }
  else
    { st with child_wait_time := st.min_child_wait_time }

/-- The spec's wait-time invariant:
min_wait ≤ wait_time ≤ max(min_wait, max_wait). -/
def wait_time_inv (st : SupState) : Prop :=
  st.min_child_wait_time ≤ st.child_wait_time ∧
  st.child_wait_time ≤ max st.min_child_wait_time st.max_child_wait_time

instance (st : SupState) : Decidable (wait_time_inv st) :=
  inferInstanceAs (Decidable (_ ∧ _))

/-- A supervisor started as `-m 2 -M 8` with a dead child, about to hit a
fork failure in `start_child`. -/
def c3_state : SupState :=
  { child_pid := -1, pty_fd := -1, do_restart := true, do_exit := false,
    child_wait_time := 2, min_child_wait_time := 2, max_child_wait_time := 8 }

/-- C3 counterexample: the fork-failure path pins `child_wait_time` to 60,
above max(min_wait, max_wait) = 8, and the orderly-shutdown path raises
`min_child_wait_time` to 5 above the unchanged `child_wait_time` = 2; both
event handlers break the claimed invariant. -/
theorem c3_bounds_violated :
    wait_time_inv c3_state ∧
    ¬ wait_time_inv (start_child c3_state none) ∧
    wait_time_inv c2_state ∧
    ¬ wait_time_inv (kill_child_and_exit c2_state true).state := by
  refine ⟨by decide, ?_, by decide, ?_⟩ <;>
    · rw [wait_time_inv]
      decide

/-- C3 amended: the startup fix-up establishes
min_wait ≤ wait_time ≤ max(min_wait, max_wait) and makes
min_wait ≤ max_wait; the reap/backoff handler, `start_monitoring` (with a
tracked child) and `stop_monitoring` preserve the invariant; the
fork-failure path (wait_time pinned to 60) and the orderly-shutdown path
(min and max forced to 5) do not preserve it. -/
theorem c3_bounds_amended (st st0 : SupState) (pid : Int) (oa : Option Int)
    (st1 : SupState) (f : Option (Int × Int))
    (h0 : 0 ≤ st.min_child_wait_time)
    (h1 : st.min_child_wait_time ≤ st.max_child_wait_time)
    (hinv : wait_time_inv st)
    (hc : 0 < st.child_pid)
    (hstep : handle_child_signal st pid = .cont oa st1) :
    wait_time_inv (startup_fixup st0) ∧
    (startup_fixup st0).min_child_wait_time ≤
      (startup_fixup st0).max_child_wait_time ∧
    wait_time_inv st1 ∧
    wait_time_inv (start_monitoring st f) ∧
    wait_time_inv (stop_monitoring st) := by
  obtain ⟨ha, hb⟩ := hinv
  have hmax : max st.min_child_wait_time st.max_child_wait_time
      = st.max_child_wait_time := max_eq_right h1
  rw [hmax] at hb
  refine ⟨?_, ?_, ?_, ?_, ?_⟩
  · rw [wait_time_inv, startup_fixup]
    split <;> simp
  · rw [startup_fixup]
    split
    · simp
    · simp only
      omega
  · rw [handle_child_signal] at hstep
    split at hstep
    · cases hstep
      exact ⟨ha, hb.trans (le_max_right _ _)⟩
    · simp only at hstep
      split at hstep
      · cases hstep
      · split at hstep <;> cases hstep
        · rw [wait_time_inv, set_child_wait_time]
          constructor
          · simp only
            split <;> omega
          · simp only [max_eq_right h1]
            split <;> omega
        · exact ⟨ha, hb.trans (le_max_right _ _)⟩
  · rw [start_monitoring]
    simp only
    rw [if_neg (by omega)]
    exact ⟨le_refl _, le_max_left _ _⟩
  · exact ⟨ha, hb.trans (le_max_right _ _)⟩

/-- Witness for `c3_bounds_amended`: a reap at `demo_state`. -/
theorem c3_bounds_amended_witness :
    (0 : Int) ≤ demo_state.min_child_wait_time ∧
    demo_state.min_child_wait_time ≤ demo_state.max_child_wait_time ∧
    wait_time_inv demo_state ∧
    (0 : Int) < demo_state.child_pid ∧
    handle_child_signal demo_state 100 =
      .cont (some 2) (set_child_wait_time
        { demo_state with child_pid := -1, pty_fd := -1 }) ∧
    (wait_time_inv (startup_fixup c3_state) ∧
     (startup_fixup c3_state).min_child_wait_time ≤
       (startup_fixup c3_state).max_child_wait_time ∧
     wait_time_inv (set_child_wait_time
       { demo_state with child_pid := -1, pty_fd := -1 }) ∧
     wait_time_inv (start_monitoring demo_state none) ∧
     wait_time_inv (stop_monitoring demo_state)) := by
  refine ⟨by decide, by decide, ⟨by decide, by decide⟩, by decide, by decide,
    ?_⟩
  exact c3_bounds_amended demo_state c3_state 100 (some 2)
    (set_child_wait_time { demo_state with child_pid := -1, pty_fd := -1 })
    none (by decide) (by decide) ⟨by decide, by decide⟩ (by decide)
    (by decide)

/-- Result of the SIGINT event handler: either the supervisor exits now,
or it continues, recording whether SIGINT was forwarded to the child. -/
inductive IntEvent where
  | exited (code : Int)
  | cont (sent_int : Bool) (st : SupState)
deriving DecidableEq, Repr

/-- `send_int_to_child` (process-monitor.c:974-1001).  With no child: a
daemon just logs, a foreground supervisor exits 1.  With a child: SIGINT
is forwarded; in the foreground case `do_restart` is cleared and
`do_exit` latched, in the daemon case the flags are untouched. -/
def send_int_to_child (st : SupState) (is_daemon : Bool) : IntEvent :=
  if st.child_pid ≤ 0 then
    if is_daemon then .cont false st else .exited 1
  else if is_daemon then
    .cont true st
  else
    .cont true { st with do_restart := false, do_exit := true }

/-- Result of the SIGALRM event handler. -/
inductive AlarmEvent where
  | exited (code : Int)
  | cont (st : SupState)
deriving DecidableEq, Repr

/-- `handle_alarm_signal` (process-monitor.c:840-851): respawn the child
when monitoring and none is tracked; then exit 1 if `do_exit` is
latched. -/
def handle_alarm_signal (st : SupState)
    (forkpty_result : Option (Int × Int)) : AlarmEvent :=
  let st1 := if st.do_restart ∧ st.child_pid ≤ 0
             then start_child st forkpty_result else st
  if st1.do_exit then .exited 1 else .cont st1

/-- A foreground supervisor with a tracked child (pid 42), about to
receive Ctrl-C. -/
def c4_state : SupState :=
  { child_pid := 42, pty_fd := 5, do_restart := true, do_exit := false,
    child_wait_time := 2, min_child_wait_time := 2,
    max_child_wait_time := 300 }

/-- C4 counterexample: after a foreground SIGINT is forwarded and the
latched child exits and is reaped, `handle_child_signal` exits with
status 0, not 1. -/
theorem c4_exit_status_zero :
    send_int_to_child c4_state false =
      .cont true { c4_state with do_restart := false, do_exit := true } ∧
    handle_child_signal
      { c4_state with do_restart := false, do_exit := true } 42 =
      .exited 0 ∧
    (ChildEvent.exited 0 ≠ ChildEvent.exited 1) := by
  refine ⟨by decide, by decide, by decide⟩

/-- C4 amended: a foreground SIGINT with a tracked child forwards SIGINT
and latches no-restart and exit-on-death; when the child is then reaped
the supervisor exits with status 0. -/
theorem c4_foreground_int_amended (st : SupState) (hc : 0 < st.child_pid) :
    send_int_to_child st false =
      .cont true { st with do_restart := false, do_exit := true } ∧
    handle_child_signal { st with do_restart := false, do_exit := true }
      st.child_pid = .exited 0 := by
  constructor
  · rw [send_int_to_child, if_neg (by omega)]
    simp
  · rw [handle_child_signal, if_neg (by simp; omega)]
    simp

/-- Witness for `c4_foreground_int_amended` at `c4_state`. -/
theorem c4_foreground_int_amended_witness :
    send_int_to_child c4_state false =
      .cont true { c4_state with do_restart := false, do_exit := true } ∧
    handle_child_signal { c4_state with do_restart := false, do_exit := true }
      c4_state.child_pid = .exited 0 :=
  c4_foreground_int_amended c4_state (by decide)

/-- A monitoring supervisor (`-m 2 -M 8`, backed off to 8) with a tracked
child, receiving the start command. -/
def c6_state : SupState :=
  { child_pid := 7, pty_fd := 4, do_restart := true, do_exit := false,
    child_wait_time := 8, min_child_wait_time := 2, max_child_wait_time := 8 }

/-- C6 counterexample: the start command while already monitoring with a
child is not a state no-op: `start_monitoring` resets `child_wait_time`
from 8 to `min_child_wait_time` = 2. -/
theorem c6_start_resets_wait :
    c6_state.do_restart = true ∧ 0 < c6_state.child_pid ∧
    (start_monitoring c6_state (some (9, 9))).child_wait_time = 2 ∧
    (start_monitoring c6_state (some (9, 9))).child_wait_time ≠
      c6_state.child_wait_time := by
  refine ⟨rfl, by decide, by decide, by decide⟩

/-- C6 amended: the start command while already monitoring with a tracked
child changes nothing except resetting `child_wait_time` to
`min_child_wait_time`; `do_restart` (already true), `do_exit`,
`child_pid`, `pty_fd` and the wait bounds are unchanged and no child is
spawned. -/
theorem c6_start_noop_amended (st : SupState) (f : Option (Int × Int))
    (hm : st.do_restart = true) (hc : 0 < st.child_pid) :
    start_monitoring st f =
      { st with child_wait_time := st.min_child_wait_time } := by
  rw [start_monitoring]
  simp only
  rw [if_neg (by simp; omega)]
  rw [← hm]

/-- Witness for `c6_start_noop_amended` at `c6_state`. -/
theorem c6_start_noop_amended_witness :
    start_monitoring c6_state (some (9, 9)) =
      { c6_state with child_wait_time := c6_state.min_child_wait_time } :=
  c6_start_noop_amended c6_state (some (9, 9)) rfl (by decide)

/-- `PTY_LINE_LEN` (process-monitor.c:95): capacity of `pty_data`. -/
def PTY_LINE_LEN : Nat := 2048

/-- The CRLF rewrite in `read_pty_fd` (process-monitor.c:813-821): when
the accumulated line has length ≥ 2 and ends in CR LF, the CR is dropped
so the line ends in LF alone. -/
def crlf_fix (l : List Nat) : List Nat :=
  if 2 ≤ l.length ∧ l.getLast? = some 10 ∧ l.dropLast.getLast? = some 13 then
    l.dropLast.dropLast ++ [10]
  else l

/-- The bytes `logchild("%s", ...)` actually emits: everything up to the
first NUL. -/
def c_string (l : List Nat) : List Nat := l.takeWhile (fun b => b ≠ 0)

/-- The per-byte body of the loop in `read_pty_fd`
(process-monitor.c:809-832).  The byte is appended to the line buffer.
On LF or NUL the buffer is emitted as one line (after the CRLF rewrite)
and reset; when the buffer reaches `PTY_LINE_LEN - 1` = 2047 bytes without
a terminator it is emitted with an added LF and reset.  Returns the new
buffer and the emitted record, if any. -/
def pty_process_byte (buffer : List Nat) (b : Nat) :
    List Nat × Option (List Nat) :=
  let buffer1 := buffer ++ [b]
  if b = 10 ∨ b = 0 then
    ([], some (c_string (crlf_fix buffer1)))
  else if buffer1.length = PTY_LINE_LEN - 1 then
    ([], some (c_string buffer1 ++ [10]))
  else
    (buffer1, none)

/-- `read_pty_fd`'s loop over a byte sequence read from the pty master:
final line buffer and the list of emitted records. -/
def pty_process (buffer : List Nat) (bs : List Nat) :
    List Nat × List (List Nat) :=
  match bs with
  | [] => (buffer, [])
  | b :: rest =>
    let step := pty_process_byte buffer b
    let next := pty_process step.1 rest
    (next.1, step.2.toList ++ next.2)

/-- C5: each pty byte is appended to the line buffer; a line is emitted
and the buffer reset exactly on LF or NUL or on the buffer reaching 2047
bytes; a line ending in CR LF is emitted ending in LF alone, and the byte
sequence of "hello\r\n" yields the single record "hello\n". -/
theorem c5_pty_line_assembly (buffer l : List Nat) (b : Nat)
    (hl : ∀ x ∈ l, x ≠ 0) :
    ((pty_process_byte buffer b).2.isSome ↔
      (b = 10 ∨ b = 0 ∨ buffer.length + 1 = 2047)) ∧
    ((pty_process_byte buffer b).1 =
      if b = 10 ∨ b = 0 ∨ buffer.length + 1 = 2047 then []
      else buffer ++ [b]) ∧
    (pty_process_byte (l ++ [13]) 10).2 = some (l ++ [10]) ∧
    pty_process [] [104, 101, 108, 108, 111, 13, 10] =
      ([], [[104, 101, 108, 108, 111, 10]]) := by
  have hcap : (buffer ++ [b]).length = buffer.length + 1 := by simp
  have hfix : crlf_fix (l ++ [13] ++ [10]) = l ++ [10] := by
    rw [crlf_fix, if_pos]
    · rw [List.dropLast_concat, List.dropLast_concat]
    · refine ⟨by simp, by simp, ?_⟩
      rw [List.dropLast_concat, List.getLast?_concat]
  have hcs : c_string (l ++ [10]) = l ++ [10] := by
    rw [c_string]
    rw [List.takeWhile_eq_self_iff.mpr]
    intro x hx
    rcases List.mem_append.mp hx with h | h
    · simpa using hl x h
    · simp only [List.mem_singleton] at h
      simp [h]
  refine ⟨?_, ?_, ?_, by decide⟩
  · rw [pty_process_byte]
    simp only [hcap, PTY_LINE_LEN]
    by_cases h1 : b = 10 ∨ b = 0
    · simp [h1]
      tauto
    · by_cases h2 : buffer.length + 1 = 2047 <;> simp [h1, h2]
  · rw [pty_process_byte]
    simp only [hcap, PTY_LINE_LEN]
    by_cases h1 : b = 10 ∨ b = 0
    · simp [h1]
      tauto
    · by_cases h2 : buffer.length + 1 = 2047 <;> simp [h1, h2]
  · rw [pty_process_byte]
    simp only
    rw [if_pos (Or.inl trivial : True ∨ (10 : Nat) = 0)]
    rw [hfix, hcs]

/-- Witness for `c5_pty_line_assembly` with buffer [72], pending line
[104] and incoming byte 10. -/
theorem c5_pty_line_assembly_witness :
    ((pty_process_byte [72] 10).2.isSome ↔
      ((10 : Nat) = 10 ∨ (10 : Nat) = 0 ∨ [72].length + 1 = 2047)) ∧
    ((pty_process_byte [72] 10).1 =
      if (10 : Nat) = 10 ∨ (10 : Nat) = 0 ∨ [72].length + 1 = 2047 then []
      else [72] ++ [10]) ∧
    (pty_process_byte ([104] ++ [13]) 10).2 = some ([104] ++ [10]) ∧
    pty_process [] [104, 101, 108, 108, 111, 13, 10] =
      ([], [[104, 101, 108, 108, 111, 10]]) :=
  c5_pty_line_assembly [72] [104] 10 (by decide)

/-- `xmalloc` (xmalloc.c:8-23).  `malloc_result` models what `malloc`
returned (`none` for NULL).  A NULL result for size 0 is returned to the
caller; a NULL result for a nonzero size is fatal with exit 5
(`Except.error 5`). -/
def xmalloc (size : Nat) (malloc_result : Option Unit) :
    Except Nat (Option Unit) :=
  if malloc_result = none ∧ size = 0 then .ok none
  else if size = 0 then .ok malloc_result
  else if malloc_result = none then .error 5
  else .ok malloc_result

/-- `xrealloc` (xmalloc.c:26-43).  A NULL `ptr` delegates to `xmalloc`;
size 0 frees and returns NULL; otherwise a NULL `realloc` result is fatal
with exit 5. -/
def xrealloc (ptr : Option Unit) (size : Nat) (alloc_result : Option Unit) :
    Except Nat (Option Unit) :=
  if ptr = none then xmalloc size alloc_result
  else if size = 0 then .ok none
  else if alloc_result = none then .error 5
  else .ok alloc_result

/-- `struct envlist` (envlist.h): the entry array (`none` for a NULL
array pointer), its capacity `maxlen` and the number of entries `len`. -/
structure Envlist where
  env : Option (List String)
  maxlen : Nat
  len : Nat
deriving DecidableEq, Repr

/-- `envlist_new` (envlist.c:10-21).  When `malloc` for the struct fails
the function just returns NULL; when `malloc` for the array fails the
struct is still returned, with a NULL array.  Neither failure exits. -/
def envlist_new (struct_malloc : Option Unit) (env_malloc : Option Unit) :
    Option Envlist :=
  match struct_malloc with
  | none => none
  | some _ =>
    some { env := env_malloc.map (fun _ => ([] : List String)),
           maxlen := 10, len := 0 }

/-- `envlist_add` (envlist.c:24-53).  A NULL entry array is allocated
(failure: exit 2); a full array (`len = maxlen − 2`) is grown by
`realloc` (failure: exit 2); then the entry is appended. -/
def envlist_add (envp : Envlist) (envvar : String)
    (alloc_result : Option Unit) : Except Nat Envlist :=
  match envp.env with
  | none =>
    if alloc_result = none then .error 2
    else .ok { env := some [envvar], maxlen := 10, len := envp.len + 1 }
  | some entries =>
    if (envp.len : Int) = (envp.maxlen : Int) - 2 then
      if alloc_result = none then .error 2
      else .ok { env := some (entries ++ [envvar]),
                 maxlen := envp.maxlen + 10, len := envp.len + 1 }
    else .ok { env := some (entries ++ [envvar]),
               maxlen := envp.maxlen, len := envp.len + 1 }

/-- C7 counterexample: an allocation failure in `envlist_add` (malloc
returning NULL for the entry array, a nonzero request of 10 pointers)
exits with status 2, not 5. -/
theorem c7_envlist_exit_two :
    envlist_add { env := none, maxlen := 0, len := 0 } "A=B" none =
      .error 2 ∧
    envlist_add { env := none, maxlen := 0, len := 0 } "A=B" none ≠
      .error 5 := by
  constructor
  · rfl
  · intro h
    cases h

/-- C7 amended: allocation failures in `xmalloc` and `xrealloc` for a
nonzero size are fatal with exit 5, but allocation failures in
`envlist_add` are fatal with exit 2, and `envlist_new` returns NULL to
its caller instead of exiting. -/
theorem c7_alloc_failure_amended :
    (∀ (size : Nat) (m : Option Unit),
      xmalloc size m = .error 5 ↔ (m = none ∧ size ≠ 0)) ∧
    (∀ (ptr : Option Unit) (size : Nat) (m : Option Unit),
      xrealloc ptr size m = .error 5 ↔ (m = none ∧ size ≠ 0)) ∧
    (∀ (envp : Envlist) (v : String) (m : Option Unit),
      envlist_add envp v m = .error 2 ↔
        (m = none ∧
         (envp.env = none ∨
          (envp.len : Int) = (envp.maxlen : Int) - 2))) ∧
    (∀ m : Option Unit, envlist_new none m = none) := by
  have hx : ∀ (size : Nat) (m : Option Unit),
      xmalloc size m = .error 5 ↔ (m = none ∧ size ≠ 0) := by
    intro size m
    rcases m with _ | u <;> by_cases hs : size = 0 <;>
      simp [xmalloc, hs]
  refine ⟨hx, ?_, ?_, fun m => rfl⟩
  · intro ptr size m
    rcases ptr with _ | p
    · rw [xrealloc, if_pos rfl]
      exact hx size m
    · rcases m with _ | u <;> by_cases hs : size = 0 <;>
        simp [xrealloc, hs]
  · intro envp v m
    obtain ⟨env, maxlen, len⟩ := envp
    rcases env with _ | entries
    · rcases m with _ | u <;> simp [envlist_add]
    · by_cases hful : (len : Int) = (maxlen : Int) - 2 <;>
        rcases m with _ | u <;> simp [envlist_add, hful]

deriving instance DecidableEq for Except

/-- `strtol(s, &endptr, 10)` as used by main: skip leading whitespace,
consume an optional sign and a run of decimal digits; return the signed
value and the remaining characters (`endptr`).  When no digits are
consumed, no conversion is performed: the value is 0 and `endptr` is the
original string. -/
def strtol10 (cs : List Char) : Int × List Char :=
  let cs1 := cs.dropWhile (fun c => c == ' ' || c == '\t' || c == '\n')
  let sign_rest : Bool × List Char :=
    match cs1 with
    | '-' :: rest => (true, rest)
    | '+' :: rest => (false, rest)
    | _ => (false, cs1)
  let ds := sign_rest.2.takeWhile Char.isDigit
  let rest := sign_rest.2.dropWhile Char.isDigit
  if ds = [] then (0, cs)
  else
    let v : Int :=
      ds.foldl (fun a c => a * 10 + ((c.toNat - 48 : Nat) : Int)) 0
    (if sign_rest.1 then -v else v, rest)

/-- `uid_t` is unsigned 32-bit on the target platform. -/
def UID_MOD : Nat := 2 ^ 32

/-- The `--user` resolution in `main` (process-monitor.c:244-273).
`getpwnam_result` is the uid of an existing account of that name, or
`none`.  When the name is not an account, it is run through `strtol`;
the result is stored into the unsigned `uid_t` variable `child_uid`
(modelled by the mod-2^32 wrap), and the source then tests
`*endptr || child_uid < 0` — a comparison on an unsigned value, kept
literally here as `child_uid < 0` on `Nat`. -/
def resolve_child_uid (getpwnam_result : Option Nat)
    (child_username : String) : Except Nat Nat :=
  match getpwnam_result with
  | some uid => .ok uid
  | none =>
    let r := strtol10 child_username.data
    let child_uid : Nat := (r.1 % (UID_MOD : Int)).toNat
    if r.2 ≠ [] ∨ child_uid < 0 then .error 1 else .ok child_uid

/-- C8: an unknown non-numeric user name is rejected with exit 1, but a
negative numeric `--user` argument such as "-5" is accepted: the value
wraps into the unsigned `child_uid` (here 2^32 − 5 = 4294967291) and the
`child_uid < 0` test, performed on an unsigned type, is always false, so
startup continues instead of failing with exit 1 as the claim states. -/
theorem c8_negative_uid_accepted :
    resolve_child_uid none "bob" = .error 1 ∧
    resolve_child_uid none "-5" = .ok 4294967291 ∧
    resolve_child_uid none "-5" ≠ .error 1 := by
  refine ⟨by decide, by decide, by decide⟩

/-- `strchr(l, c)` as the index of the first occurrence of `c` in `l`. -/
def strchr_idx (l : List Char) (c : Char) : Option Nat :=
  match l with
  | [] => none
  | x :: xs => if x = c then some 0 else (strchr_idx xs c).map (· + 1)

/-- The two environment lists built by `add_env`: `child_envlist`
(variables to set) and `child_unenvlist` (variables to unset). -/
structure EnvConfig where
  child_envlist : List String
  child_unenvlist : List String
deriving DecidableEq, Repr

/-- `add_env` (process-monitor.c:470-490): an argument starting with '='
is rejected with exit 1; one containing '=' later is appended to the
set-list; one with no '=' is appended to the unset-list. -/
def add_env (cfg : EnvConfig) (envvar : String) : Except Nat EnvConfig :=
  match strchr_idx envvar.data '=' with
  | some 0 => .error 1
  | some (_ + 1) =>
    .ok { cfg with child_envlist := cfg.child_envlist ++ [envvar] }
  | none =>
    .ok { cfg with child_unenvlist := cfg.child_unenvlist ++ [envvar] }

theorem strchr_idx_eq_none (l : List Char) (c : Char) :
    strchr_idx l c = none ↔ c ∉ l := by
  induction l with
  | nil => simp [strchr_idx]
  | cons x xs ih =>
    rw [strchr_idx]
    by_cases hx : x = c
    · simp [hx]
    · simp only [hx, if_false, Option.map_eq_none', ih, List.mem_cons]
      constructor
      · intro h hor
        rcases hor with h1 | h1
        · exact hx h1.symm
        · exact h h1
      · intro h h1
        exact h (Or.inr h1)

theorem strchr_idx_pos (l : List Char) (c : Char) (h1 : c ∈ l)
    (h2 : l.head? ≠ some c) : ∃ n, strchr_idx l c = some (n + 1) := by
  cases l with
  | nil => cases h1
  | cons x xs =>
    have hx : ¬ x = c := by
      intro h
      exact h2 (by rw [h]; rfl)
    have hmem : c ∈ xs := by
      rcases List.mem_cons.mp h1 with h | h
      · exact absurd h.symm hx
      · exact h
    have : ¬ strchr_idx xs c = none := by
      rw [strchr_idx_eq_none]
      exact fun hn => hn hmem
    obtain ⟨n, hn⟩ := Option.ne_none_iff_exists.mp (by exact this)
    refine ⟨n, ?_⟩
    rw [strchr_idx, if_neg hx, ← hn]
    rfl

/-- C9: `--env` parsing: an argument beginning with '=' exits 1; one
containing '=' at a later position is appended to the child set-env
list; one containing no '=' is appended to the child unset-env list. -/
theorem c9_add_env (cfg : EnvConfig) (s t u : String)
    (hs : s.data.head? = some '=')
    (ht1 : '=' ∈ t.data) (ht2 : t.data.head? ≠ some '=')
    (hu : '=' ∉ u.data) :
    add_env cfg s = .error 1 ∧
    add_env cfg t =
      .ok { cfg with child_envlist := cfg.child_envlist ++ [t] } ∧
    add_env cfg u =
      .ok { cfg with child_unenvlist := cfg.child_unenvlist ++ [u] } := by
  refine ⟨?_, ?_, ?_⟩
  · have h0 : strchr_idx s.data '=' = some 0 := by
      cases hsd : s.data with
      | nil => rw [hsd] at hs; cases hs
      | cons x xs =>
        rw [hsd] at hs
        have hx : x = '=' := by
          simpa using hs
        rw [strchr_idx, if_pos hx]
    rw [add_env, h0]
  · obtain ⟨n, hn⟩ := strchr_idx_pos t.data '=' ht1 ht2
    rw [add_env, hn]
  · have h0 : strchr_idx u.data '=' = none :=
      (strchr_idx_eq_none u.data '=').mpr hu
    rw [add_env, h0]

/-- Witness for `c9_add_env` at the three arguments "=VAL", "VAR=VAL"
and "VAR" with empty lists. -/
theorem c9_add_env_witness :
    add_env { child_envlist := [], child_unenvlist := [] } "=VAL" =
      .error 1 ∧
    add_env { child_envlist := [], child_unenvlist := [] } "VAR=VAL" =
      .ok { child_envlist := [] ++ ["VAR=VAL"], child_unenvlist := [] } ∧
    add_env { child_envlist := [], child_unenvlist := [] } "VAR" =
      .ok { child_envlist := [], child_unenvlist := [] ++ ["VAR"] } :=
  c9_add_env { child_envlist := [], child_unenvlist := [] }
    "=VAL" "VAR=VAL" "VAR" (by decide) (by decide) (by decide) (by decide)

end ProcessMonitor
